import Mathlib

/-!
Shallow embedding of the BunkerWeb Terraform provider HTTP client
(package `provider`, files `src/unnamed/part_008`,
`src/internal/provider/config_resource.go`,
`src/internal/provider/instance_resource.go`,
`src/internal/provider/instance_action_ephemeral_resource.go`)
together with theorems about its request construction, response decoding,
authentication, config-key normalization, bulk-operation prechecks,
read-miss handling, instance-action dispatch, and multipart upload building.

Go strings are modelled as lists of characters; Go standard-library helpers
(`strings.TrimSpace`, `strings.ToLower`, `base64.StdEncoding`, `path.Join`,
`net/url` reference resolution) are given explicit executable models whose
behaviour on the inputs used by the theorems matches the library.
-/

/-- Go strings, modelled as lists of characters. -/
abbrev Str := List Char

/-- View of a Lean string literal as a `Str`. -/
def str (s : String) : Str := s.data

/-- Whitespace predicate of Go `strings.TrimSpace` (the ASCII part of
`unicode.IsSpace`: space, tab, newline, vertical tab, form feed,
carriage return).  The theorems only apply it to ASCII text. -/
def isGoSpace (c : Char) : Bool :=
  c = ' ' || c = '\t' || c = '\n' || c = Char.ofNat 11 || c = Char.ofNat 12 || c = '\r'

/-- Model of Go `strings.TrimSpace`: drop whitespace from both ends. -/
def goTrim (s : Str) : Str :=
  List.rdropWhile isGoSpace (List.dropWhile isGoSpace s)

/-- ASCII lowering of one character, as `strings.ToLower` does on ASCII input. -/
def lowerChar (c : Char) : Char :=
  if 'A' ≤ c ∧ c ≤ 'Z' then Char.ofNat (c.toNat + 32) else c

/-- Model of Go `strings.ToLower` (ASCII fragment, which is all the client uses). -/
def goToLower (s : Str) : Str := s.map lowerChar

/-- Model of Go `strings.EqualFold` on ASCII input: case-insensitive equality. -/
def goEqualFold (a b : Str) : Bool := goToLower a = goToLower b

/-- Model of Go `strings.TrimPrefix s pre`: remove one leading copy of `pre`. -/
def goTrimLeading (s pre : Str) : Str :=
  if pre.isPrefixOf s then s.drop pre.length else s

/-- UTF-8 byte encoding of one character, as in Go's conversion of a
string to `[]byte`. -/
def utf8Bytes (c : Char) : List Nat :=
  let n := c.toNat
  if n < 128 then [n]
  else if n < 2048 then [192 + n / 64, 128 + n % 64]
  else if n < 65536 then [224 + n / 4096, 128 + n / 64 % 64, 128 + n % 64]
  else [240 + n / 262144, 128 + n / 4096 % 64, 128 + n / 64 % 64, 128 + n % 64]

/-- The UTF-8 bytes of a Go string. -/
def strBytes (s : Str) : List Nat := (s.map utf8Bytes).flatten

/-- The standard base64 alphabet used by Go `base64.StdEncoding`. -/
def base64Alphabet : Str :=
  str "ABCDEFGHIJKLMNOPQRSTUVWXYZabcdefghijklmnopqrstuvwxyz0123456789+/"

/-- One base64 digit. -/
def base64Char (n : Nat) : Char := base64Alphabet.getD n '='

/-- Model of Go `base64.StdEncoding.EncodeToString`: encode bytes in groups
of three, padding the final group with `=`. -/
def base64Encode : List Nat → Str
  | [] => []
  | [b1] => [base64Char (b1 / 4), base64Char (b1 % 4 * 16), '=', '=']
  | [b1, b2] =>
      [base64Char (b1 / 4), base64Char (b1 % 4 * 16 + b2 / 16),
       base64Char (b2 % 16 * 4), '=']
  | b1 :: b2 :: b3 :: rest =>
      base64Char (b1 / 4) :: base64Char (b1 % 4 * 16 + b2 / 16) ::
      base64Char (b2 % 16 * 4 + b3 / 64) :: base64Char (b3 % 64) :: base64Encode rest

/-- `base64.StdEncoding.EncodeToString([]byte(s))` for a Go string `s`. -/
def goBase64 (s : Str) : Str := base64Encode (strBytes s)

/-- Relevant fields of Go `net/url.URL` (the client never sets user info,
opaque data or fragments). -/
structure GoURL where
  scheme : Str
  host : Str
  path : Str
  rawQuery : Str
deriving DecidableEq

/-- One step of the segment loop of Go `net/url.resolvePath`.  The builder
state is `(first, body)`, the path built so far being `/` followed by
`body`.  A `.` segment is dropped (clearing `first`); a `..` segment cuts
`body` back to just before its last slash, or resets the builder when it
has no slash; any other segment is appended, preceded by a slash unless it
is the first segment written since a reset. -/
def resolvePathStep : Bool × Str → Str → Bool × Str
  | (first, body), seg =>
    if seg = str "." then (false, body)
    else if seg = str ".." then
      let kept := List.rdropWhile (fun c => c ≠ '/') body
      if kept = [] then (true, [])
      else (first, kept.dropLast)
    else if first then (false, body ++ seg)
    else (false, body ++ '/' :: seg)

/-- The dot-segment removal of Go `net/url.resolvePath` on a non-empty
path: run the segment loop over the path split on `/`, append a trailing
slash when the last segment is `.` or `..`, and emit the leading slash Go
writes up front unless the body already starts with one (Go then drops one
of the doubled pair).  The result always begins with `/`, as in Go, even
when the input does not. -/
def removeDotSegments (full : Str) : Str :=
  let segs := full.splitOn '/'
  let st := segs.foldl resolvePathStep (true, [])
  let body :=
    if segs.getLast? = some (str ".") ∨ segs.getLast? = some (str "..")
    then st.2 ++ str "/" else st.2
  if body.head? = some '/' then body else '/' :: body

/-- Model of Go `net/url.resolvePath base ref`: merge the reference path with
the base path (keeping the base up to and including its last slash) and
remove dot segments. -/
def resolvePath (base ref : Str) : Str :=
  let full :=
    if ref = [] then base
    else if ref.head? = some '/' then ref
    else List.rdropWhile (fun c => c ≠ '/') base ++ ref
  if full = [] then [] else removeDotSegments full

/-- Model of Go `(*url.URL).ResolveReference` restricted to the URL fields
the client uses (no user info, opaque data or fragments). -/
def resolveReference (base ref : GoURL) : GoURL :=
  if ref.scheme ≠ [] ∨ ref.host ≠ [] then
    { scheme := if ref.scheme = [] then base.scheme else ref.scheme,
      host := ref.host,
      path := resolvePath ref.path [],
      rawQuery := ref.rawQuery }
  else
    { scheme := base.scheme,
      host := base.host,
      path := resolvePath base.path ref.path,
      rawQuery := if ref.path = [] ∧ ref.rawQuery = [] then base.rawQuery else ref.rawQuery }

/-- The client state (source: `bunkerWebClient`); the `http.Client` handle
carries no decision-relevant state and is omitted. -/
structure bunkerWebClient where
  baseURL : GoURL
  apiToken : Str
  apiUsername : Str
  apiPassword : Str
deriving DecidableEq

/-- Model of `withEndpoint`: trim one leading slash, parse the remainder as a
scheme-less host-less relative reference (path split from the raw query at
the first `?`), and resolve it against the base URL.  The resolved URL
record stands for the `resolved.String()` result. -/
def withEndpoint (c : bunkerWebClient) (endpoint : Str) : GoURL :=
  let rel := goTrimLeading endpoint (str "/")
  resolveReference c.baseURL
    { scheme := [], host := [],
      path := rel.takeWhile (fun ch => ch ≠ '?'),
      rawQuery := (rel.dropWhile (fun ch => ch ≠ '?')).drop 1 }

/-- Relevant fields of the built `http.Request`. -/
structure httpRequest where
  method : Str
  url : GoURL
  contentType : Option Str
  authorization : Option Str
deriving DecidableEq

/-- Model of `newRawRequest`: resolve the target URL, set the content type
when non-empty, and set the Authorization header — bearer token first, then
basic credentials when both username and password are non-empty, else none. -/
def newRawRequest (c : bunkerWebClient) (method endpoint contentType : Str) :
    httpRequest :=
  let target := withEndpoint c endpoint
  let auth :=
    if c.apiToken ≠ [] then
      some (str "Bearer " ++ c.apiToken)
    else if c.apiUsername ≠ [] ∧ c.apiPassword ≠ [] then
      some (str "Basic " ++ goBase64 (c.apiUsername ++ [':'] ++ c.apiPassword))
    else none
  { method := method, url := target,
    contentType := if contentType ≠ [] then some contentType else none,
    authorization := auth }

/-- Model of `newRequest`: a JSON body yields content type
`application/json`; a nil body yields no content type.  The encoded body
bytes carry no decision-relevant information for the claims. -/
def newRequest (c : bunkerWebClient) (method endpoint : Str) (hasBody : Bool) :
    httpRequest :=
  newRawRequest c method endpoint (if hasBody then str "application/json" else [])

/-- The response envelope (source: `bunkerWebAPIEnvelope`).  `data` holds the
raw JSON text of the `data` member; `[]` stands for an absent member
(a zero-length `json.RawMessage`). -/
structure bunkerWebAPIEnvelope where
  status : Str
  message : Str
  data : Str
deriving DecidableEq

/-- Abstraction of the response body as seen by `do` after `io.ReadAll` and
the `json.Unmarshal` attempt: empty; non-empty text that does not parse as
the envelope; or text that parses to a given envelope. -/
inductive responseBody where
  | empty : responseBody
  | invalid (text : Str) : responseBody
  | envelope (e : bunkerWebAPIEnvelope) (text : Str) : responseBody
deriving DecidableEq

/-- The classified outcome of the `do` step.  `ok payload` is a nil error
return: `payload` is the raw `data` JSON handed to the destination
unmarshal, `none` when the destination is left untouched. -/
inductive doResult where
  | ok (payload : Option Str) : doResult
  | apiError (statusCode : Nat) (message : Str) : doResult
  | decodeEnvelopeError : doResult
deriving DecidableEq

/-- Whether a `doResult` is a success (nil error in the source). -/
def doResult.isOk : doResult → Bool
  | .ok _ => true
  | _ => false

/-- Model of the response-processing tail of `(*bunkerWebClient).do`
(src/unnamed/part_008 lines 241-302), given the HTTP status code, the HTTP
status line (`resp.Status`), the parsed body, and whether a destination
(`out`) was supplied.  The final `json.Unmarshal(envelope.Data, out)` is
represented by the payload carried in `doResult.ok`. -/
def doStep (statusCode : Nat) (statusLine : Str) (body : responseBody)
    (outSupplied : Bool) : doResult :=
  match body with
  | .empty =>
      if 200 ≤ statusCode ∧ statusCode < 300 then .ok none
      else .apiError statusCode (goTrim statusLine)
  | .invalid text =>
      if 200 ≤ statusCode ∧ statusCode < 300 then .decodeEnvelopeError
      else
        let msg := goTrim text
        let msg := if msg = [] then statusLine else msg
        .apiError statusCode msg
  | .envelope e text =>
      let status := goToLower e.status
      if statusCode < 200 ∨ 300 ≤ statusCode ∨
          (status ≠ str "ok" ∧ status ≠ str "success") then
        let msg := e.message
        let msg := if msg = [] then goTrim text else msg
        let msg := if msg = [] then statusLine else msg
        .apiError statusCode msg
      else if ¬ outSupplied ∨ e.data = [] ∨ e.data = str "null" then .ok none
      else .ok (some e.data)

/-- Model of `(*bunkerWebClient).Login` up to sending the request: validate
the trimmed credentials, build the `POST auth` request, and overwrite its
Authorization header with Basic credentials built from the arguments
(regardless of the configured auth mode).  `error` is the local failure
returned before any network call. -/
def Login (c : bunkerWebClient) (username password : Str) :
    Except Str httpRequest :=
  if goTrim username = [] then .error (str "username must be provided")
  else if goTrim password = [] then .error (str "password must be provided")
  else
    let req := newRequest c (str "POST") (str "auth") true
    .ok { req with
          authorization :=
            some (str "Basic " ++ goBase64 (username ++ [':'] ++ password)) }

/-- Model of the success tail of `Login`: `c.apiToken = payload.Token`. -/
def loginApply (c : bunkerWebClient) (token : Str) : bunkerWebClient :=
  { c with apiToken := token }

/-- A Terraform framework string value (source: `types.String`), which can be
null, unknown, or a concrete string. -/
inductive tfString where
  | null : tfString
  | unknown : tfString
  | value (s : Str) : tfString
deriving DecidableEq

/-- Model of `normalizeTFService` (config_resource.go): null/unknown and
whitespace-only values become `global`; otherwise the trimmed value. -/
def normalizeTFService : tfString → Str
  | .null => str "global"
  | .unknown => str "global"
  | .value s =>
      let trimmed := goTrim s
      if trimmed = [] then str "global" else trimmed

/-- Model of `stringPointer` (config_resource.go lines 331-337): a value
case-insensitively equal to `global` becomes a nil pointer. -/
def stringPointer (value : Str) : Option Str :=
  if goEqualFold value (str "global") then none else some value

/-- The composite config key (source: `ConfigKey`).  The source field `Type`
is spelled `Typ` because `Type` is reserved in Lean. -/
structure ConfigKey where
  Service : Option Str
  Typ : Str
  Name : Str
deriving DecidableEq

/-- Model of Go `path.Join` on dot-free segments: empty elements are skipped
and the rest joined with `/` (on such input `path.Clean` is the identity,
so it is omitted). -/
def goPathJoin (elems : List Str) : Str :=
  List.intercalate (str "/") (elems.filter (fun e => e ≠ []))

/-- The service path segment chosen by `configPath`: `global` for an absent
or whitespace-only service, otherwise the trimmed service. -/
def serviceSegment : Option Str → Str
  | none => str "global"
  | some s =>
      let trimmed := goTrim s
      if trimmed = [] then str "global" else trimmed

/-- Model of `configPath` (src/unnamed/part_008 lines 1166-1176). -/
def configPath (key : ConfigKey) : Str :=
  goPathJoin [str "configs", serviceSegment key.Service, key.Typ, key.Name]

/-- The service pointer produced by the provider pipeline before calling the
client (`toConfigKey` / `Create` in config_resource.go):
`stringPointer(normalizeTFService(v))`. -/
def toConfigKeyService (v : tfString) : Option Str :=
  stringPointer (normalizeTFService v)

/-- The full provider-side normalization of a config service attribute down
to the path segment used to address the resource. -/
def normalizedServiceSegment (v : tfString) : Str :=
  serviceSegment (toConfigKeyService v)

/-- The client failure type: the tagged API error (source:
`bunkerWebAPIError`, carrying an HTTP status code) versus a local
validation error built with `fmt.Errorf` (carrying no status code). -/
inductive bunkerWebError where
  | apiError (statusCode : Nat) (message : Str) : bunkerWebError
  | localError (message : Str) : bunkerWebError
deriving DecidableEq

/-- Model of `(*bunkerWebAPIError).Error()` and of the plain message of a
local error (the nil-receiver branch is unreachable from the claims). -/
def errorString : bunkerWebError → Str
  | .apiError code msg =>
      if msg ≠ [] then
        str "bunkerweb api error (" ++ Nat.toDigits 10 code ++ str "): " ++ msg
      else
        str "bunkerweb api error (" ++ Nat.toDigits 10 code ++ str ")"
  | .localError msg => msg

/-- An outgoing ban item (source: `BanRequest`). -/
structure BanRequest where
  IP : Str
  Exp : Option Int
  Reason : Option Str
  Service : Option Str
deriving DecidableEq

/-- An outgoing unban item (source: `UnbanRequest`). -/
structure UnbanRequest where
  IP : Str
  Service : Option Str
deriving DecidableEq

/-- Model of `(*bunkerWebClient).BanBulk` up to sending: an empty batch is
rejected locally with a plain error before any request is built. -/
def BanBulk (c : bunkerWebClient) (reqs : List BanRequest) :
    Except bunkerWebError httpRequest :=
  if reqs = [] then .error (.localError (str "at least one ban request is required"))
  else .ok (newRequest c (str "POST") (str "bans/ban") true)

/-- Model of `(*bunkerWebClient).UnbanBulk` up to sending. -/
def UnbanBulk (c : bunkerWebClient) (reqs : List UnbanRequest) :
    Except bunkerWebError httpRequest :=
  if reqs = [] then .error (.localError (str "at least one unban request is required"))
  else .ok (newRequest c (str "POST") (str "bans/unban") true)

/-- Model of `(*bunkerWebClient).DeleteConfigs` up to sending. -/
def DeleteConfigs (c : bunkerWebClient) (keys : List ConfigKey) :
    Except bunkerWebError httpRequest :=
  if keys = [] then .error (.localError (str "at least one config key is required"))
  else .ok (newRequest c (str "DELETE") (str "configs") true)

/-- Model of `(*bunkerWebClient).DeleteInstances` up to sending. -/
def DeleteInstances (c : bunkerWebClient) (hostnames : List Str) :
    Except bunkerWebError httpRequest :=
  if hostnames = [] then .error (.localError (str "at least one hostname is required"))
  else .ok (newRequest c (str "DELETE") (str "instances") true)

/-- What a managed resource `Read` does with a failed client call. -/
inductive readDisposition where
  | removeFromState : readDisposition
  | surfaceError (title message : Str) : readDisposition
deriving DecidableEq

/-- Model of the error branch shared by `config_resource.go` `Read` (lines
165-175) and `instance_resource.go` `Read` (lines 169-173): a tagged API
error with status 404 removes the resource from state; every other failure
is surfaced via `AddError(title, err.Error())`. -/
def readMissHandling (err : bunkerWebError) (title : Str) : readDisposition :=
  match err with
  | .apiError code msg =>
      if code = 404 then .removeFromState
      else .surfaceError title (errorString (.apiError code msg))
  | .localError msg => .surfaceError title (errorString (.localError msg))

/-- An opaque decoded response payload (the `map[string]any` returned by the
per-instance client calls), abstracted as its JSON text. -/
abbrev apiPayload := Str

/-- One network call made by the instance-action dispatcher. -/
inductive instanceCall where
  | collection (endpoint : Str) : instanceCall
  | host (endpoint : Str) : instanceCall
  | batchDelete (hostnames : List Str) : instanceCall
deriving DecidableEq

/-- The remote side of the per-instance client calls, abstracted as response
oracles for each endpoint family. -/
structure instanceOracle where
  pingAll : Except bunkerWebError apiPayload
  pingHost : Str → Except bunkerWebError apiPayload
  reloadAll : Option Bool → Except bunkerWebError apiPayload
  reloadHost : Str → Option Bool → Except bunkerWebError apiPayload
  stopAll : Except bunkerWebError apiPayload
  stopHost : Str → Except bunkerWebError apiPayload
  deleteBatch : List Str → Except bunkerWebError Unit

/-- `strconv.FormatBool`. -/
def goFormatBool (b : Bool) : Str := if b then str "true" else str "false"

/-- The optional `?test=` query suffix added by the reload calls. -/
def testQuery : Option Bool → Str
  | none => []
  | some b => str "?test=" ++ goFormatBool b

/-- Model of `(*bunkerWebClient).PingInstances`: one collection-level call. -/
def PingInstances (o : instanceOracle) :
    List instanceCall × Except bunkerWebError apiPayload :=
  ([.collection (str "instances/ping")], o.pingAll)

/-- Model of `(*bunkerWebClient).PingInstance`: an empty trimmed hostname is
rejected locally with no network call; otherwise one per-host call. -/
def PingInstance (o : instanceOracle) (hostname : Str) :
    List instanceCall × Except bunkerWebError apiPayload :=
  if goTrim hostname = [] then
    ([], .error (.localError (str "hostname must be provided")))
  else
    ([.host (goPathJoin [str "instances", hostname, str "ping"])], o.pingHost hostname)

/-- Model of `(*bunkerWebClient).ReloadInstances`. -/
def ReloadInstances (o : instanceOracle) (test : Option Bool) :
    List instanceCall × Except bunkerWebError apiPayload :=
  ([.collection (str "instances/reload" ++ testQuery test)], o.reloadAll test)

/-- Model of `(*bunkerWebClient).ReloadInstance`. -/
def ReloadInstance (o : instanceOracle) (hostname : Str) (test : Option Bool) :
    List instanceCall × Except bunkerWebError apiPayload :=
  if goTrim hostname = [] then
    ([], .error (.localError (str "hostname must be provided")))
  else
    ([.host (goPathJoin [str "instances", hostname, str "reload"] ++ testQuery test)],
     o.reloadHost hostname test)

/-- Model of `(*bunkerWebClient).StopInstances`. -/
def StopInstances (o : instanceOracle) :
    List instanceCall × Except bunkerWebError apiPayload :=
  ([.collection (str "instances/stop")], o.stopAll)

/-- Model of `(*bunkerWebClient).StopInstance`. -/
def StopInstance (o : instanceOracle) (hostname : Str) :
    List instanceCall × Except bunkerWebError apiPayload :=
  if goTrim hostname = [] then
    ([], .error (.localError (str "hostname must be provided")))
  else
    ([.host (goPathJoin [str "instances", hostname, str "stop"])], o.stopHost hostname)

/-- The value computed by an instance-action handler. -/
inductive actionResult where
  | single (payload : apiPayload) : actionResult
  | perHost (entries : List (Str × apiPayload)) : actionResult
  | deleted (hostnames : List Str) : actionResult
deriving DecidableEq

/-- The sequential per-host fan-out loop shared (textually repeated) by
`handlePing`, `handleReload` and `handleStop`: call each hostname in order,
abort on the first failure, and aggregate payloads keyed by hostname. -/
def fanOut (call : Str → List instanceCall × Except bunkerWebError apiPayload) :
    List Str → List instanceCall × Except bunkerWebError (List (Str × apiPayload))
  | [] => ([], .ok [])
  | h :: t =>
      let (calls, r) := call h
      match r with
      | .error e => (calls, .error e)
      | .ok p =>
          let (calls', r') := fanOut call t
          (calls ++ calls', r'.map (fun m => (h, p) :: m))

/-- Model of `handlePing` (instance_action_ephemeral_resource.go lines
149-164): no hostnames means one collection call; otherwise the per-host
fan-out. -/
def handlePing (o : instanceOracle) (hostnames : List Str) :
    List instanceCall × Except bunkerWebError actionResult :=
  if hostnames = [] then
    let (calls, r) := PingInstances o
    (calls, r.map .single)
  else
    let (calls, r) := fanOut (PingInstance o) hostnames
    (calls, r.map .perHost)

/-- Model of `handleReload`. -/
def handleReload (o : instanceOracle) (hostnames : List Str) (test : Option Bool) :
    List instanceCall × Except bunkerWebError actionResult :=
  if hostnames = [] then
    let (calls, r) := ReloadInstances o test
    (calls, r.map .single)
  else
    let (calls, r) := fanOut (fun h => ReloadInstance o h test) hostnames
    (calls, r.map .perHost)

/-- Model of `handleStop`. -/
def handleStop (o : instanceOracle) (hostnames : List Str) :
    List instanceCall × Except bunkerWebError actionResult :=
  if hostnames = [] then
    let (calls, r) := StopInstances o
    (calls, r.map .single)
  else
    let (calls, r) := fanOut (StopInstance o) hostnames
    (calls, r.map .perHost)

/-- Model of `DeleteInstances` as used by the dispatcher: the trace of calls
plus the outcome (the empty-batch precheck makes no call). -/
def DeleteInstancesTrace (o : instanceOracle) (hostnames : List Str) :
    List instanceCall × Except bunkerWebError Unit :=
  if hostnames = [] then
    ([], .error (.localError (str "at least one hostname is required")))
  else
    ([.batchDelete hostnames], o.deleteBatch hostnames)

/-- Model of `handleDelete` (instance_action_ephemeral_resource.go lines
206-216): an empty hostname list fails locally; otherwise one batch call. -/
def handleDelete (o : instanceOracle) (hostnames : List Str) :
    List instanceCall × Except bunkerWebError actionResult :=
  if hostnames = [] then
    ([], .error (.localError (str "provide at least one hostname when operation is delete")))
  else
    let (calls, r) := DeleteInstancesTrace o hostnames
    (calls, r.map (fun _ => .deleted hostnames))

/-- One input file of the many-file upload (source: `ConfigUploadFile`). -/
structure ConfigUploadFile where
  FileName : Str
  Content : List Nat
deriving DecidableEq

/-- The many-file upload input (source: `ConfigUploadRequest`; the source
field `Type` is spelled `Typ` because `Type` is reserved in Lean). -/
structure ConfigUploadRequest where
  Service : Str
  Typ : Str
  Files : List ConfigUploadFile
deriving DecidableEq

/-- One part of a multipart body: a form field or a form file. -/
inductive multipartPart where
  | field (name value : Str) : multipartPart
  | file (fieldName fileName : Str) (content : List Nat) : multipartPart
deriving DecidableEq

/-- The per-file loop of `UploadConfigs`: each file yields one `files` part
carrying its trimmed filename and its content; an empty trimmed filename
aborts with a local error. -/
def uploadFileParts : List ConfigUploadFile → Except bunkerWebError (List multipartPart)
  | [] => .ok []
  | f :: rest =>
      let name := goTrim f.FileName
      if name = [] then .error (.localError (str "file name must be provided"))
      else (uploadFileParts rest).map (fun ps => .file (str "files") name f.Content :: ps)

/-- Model of `(*bunkerWebClient).UploadConfigs` (src/unnamed/part_008 lines
899-948) up to transmission: validate, then build the fully buffered
multipart body — the optional `service` field (only when non-empty), the
required `type` field, and one `files` part per input file. -/
def UploadConfigs (input : ConfigUploadRequest) :
    Except bunkerWebError (List multipartPart) :=
  if goTrim input.Typ = [] then .error (.localError (str "type must be provided"))
  else if input.Files = [] then .error (.localError (str "at least one file is required"))
  else
    let fieldParts :=
      (if input.Service ≠ [] then [multipartPart.field (str "service") input.Service]
       else []) ++ [multipartPart.field (str "type") input.Typ]
    (uploadFileParts input.Files).map (fun ps => fieldParts ++ ps)

/-- The single request sent by `UploadConfigs` on success, with the multipart
content type (whose boundary is abstracted away) fixed before transmission. -/
def UploadConfigsRequest (c : bunkerWebClient) (input : ConfigUploadRequest) :
    Except bunkerWebError (List multipartPart × httpRequest) :=
  (UploadConfigs input).map
    (fun parts =>
      (parts, newRawRequest c (str "POST") (str "configs/upload")
        (str "multipart/form-data")))

/-- Decidable equality of call outcomes, so witnesses can be evaluated. -/
instance {ε α : Type} [DecidableEq ε] [DecidableEq α] : DecidableEq (Except ε α) :=
  fun a b =>
    match a, b with
    | .ok x, .ok y =>
        if h : x = y then .isTrue (by rw [h]) else .isFalse (by simp [h])
    | .error x, .error y =>
        if h : x = y then .isTrue (by rw [h]) else .isFalse (by simp [h])
    | .ok _, .error _ => .isFalse (by simp)
    | .error _, .ok _ => .isFalse (by simp)

/-- A concrete oracle used to evaluate the dispatcher on fixed responses:
every instance answers, except hostname `bad`, whose ping fails with a 500
API error. -/
def pingTestOracle : instanceOracle where
  pingAll := .ok (str "all")
  pingHost := fun h =>
    if h = str "bad" then .error (.apiError 500 (str "down")) else .ok (str "pong")
  reloadAll := fun _ => .ok (str "reloaded")
  reloadHost := fun _ _ => .ok (str "reloaded")
  stopAll := .ok (str "stopped")
  stopHost := fun _ => .ok (str "stopped")
  deleteBatch := fun _ => .ok ()

/-- Helper: the first character of a trimmed string is not whitespace, so a
further left trim does nothing. -/
theorem dropWhile_goTrim (l : Str) :
    List.dropWhile isGoSpace (goTrim l) = goTrim l := by
  rw [List.dropWhile_eq_self_iff]
  intro hl
  have hbne : goTrim l ≠ [] := List.ne_nil_of_length_pos hl
  have hpre : goTrim l <+: List.dropWhile isGoSpace l :=
    List.rdropWhile_prefix _ _
  have hane : List.dropWhile isGoSpace l ≠ [] := by
    intro h
    rw [h] at hpre
    exact hbne (List.prefix_nil.mp hpre)
  have hhead := hpre.head hbne
  have hnot : isGoSpace ((List.dropWhile isGoSpace l).head hane) = false :=
    List.head_dropWhile_not isGoSpace l hane
  have hget : (goTrim l).get ⟨0, hl⟩ = (goTrim l).head hbne := by
    rw [List.head_eq_getElem_zero hbne]
    simp
  rw [hget, hhead, hnot]
  simp

/-- Go `strings.TrimSpace` is idempotent. -/
theorem goTrim_idem (l : Str) : goTrim (goTrim l) = goTrim l := by
  conv_lhs => rw [goTrim, dropWhile_goTrim]
  rw [goTrim, List.rdropWhile_idempotent]

/-- C3: every request built by the client carries `Bearer <token>` when a
bearer token is configured (taking priority over basic credentials),
`Basic base64(user:pass)` when no token is set but both username and
password are, and no Authorization header otherwise. -/
theorem claim_C3_auth_selection (c : bunkerWebClient)
    (method endpoint contentType : Str) :
    (c.apiToken ≠ [] →
      (newRawRequest c method endpoint contentType).authorization =
        some (str "Bearer " ++ c.apiToken)) ∧
    (c.apiToken = [] → c.apiUsername ≠ [] → c.apiPassword ≠ [] →
      (newRawRequest c method endpoint contentType).authorization =
        some (str "Basic " ++ goBase64 (c.apiUsername ++ [':'] ++ c.apiPassword))) ∧
    (c.apiToken = [] → (c.apiUsername = [] ∨ c.apiPassword = []) →
      (newRawRequest c method endpoint contentType).authorization = none) := by
  refine ⟨fun ht => ?_, fun ht hu hp => ?_, fun ht h => ?_⟩
  · simp [newRawRequest, ht]
  · simp [newRawRequest, goBase64, ht, hu, hp]
  · rcases h with h | h <;> simp [newRawRequest, ht, h]

/-- Witness for C3 at concrete clients (base URL `https://h/`). -/
theorem claim_C3_auth_selection_witness :
    (newRawRequest ⟨⟨str "https", str "h", str "/", []⟩, str "tok", str "admin", str "secret"⟩
      (str "GET") (str "ping") []).authorization = some (str "Bearer tok") ∧
    (newRawRequest ⟨⟨str "https", str "h", str "/", []⟩, [], str "admin", str "secret"⟩
      (str "GET") (str "ping") []).authorization = some (str "Basic YWRtaW46c2VjcmV0") ∧
    (newRawRequest ⟨⟨str "https", str "h", str "/", []⟩, [], [], []⟩
      (str "GET") (str "ping") []).authorization = none := by
  refine ⟨?_, ?_, ?_⟩
  · exact ((claim_C3_auth_selection _ _ _ _).1 (by decide)).trans (by decide)
  · exact ((claim_C3_auth_selection _ _ _ _).2.1 (by decide) (by decide) (by decide)).trans
      (by decide)
  · exact (claim_C3_auth_selection _ _ _ _).2.2 (by decide) (Or.inl (by decide))

/-- C10 (implicit): with no bearer token and exactly one of username and
password non-empty, no Authorization header is set at all. -/
theorem claim_C10_partial_basic_credentials (c : bunkerWebClient)
    (method endpoint contentType : Str) :
    c.apiToken = [] →
    ((c.apiUsername = [] ∧ c.apiPassword ≠ []) ∨
     (c.apiUsername ≠ [] ∧ c.apiPassword = [])) →
    (newRawRequest c method endpoint contentType).authorization = none := by
  intro ht h
  rcases h with ⟨h1, _⟩ | ⟨_, h2⟩
  · simp [newRawRequest, ht, h1]
  · simp [newRawRequest, ht, h2]

/-- Witness for C10: password-only and username-only clients send no
Authorization header. -/
theorem claim_C10_partial_basic_credentials_witness :
    (newRawRequest ⟨⟨str "https", str "h", str "/", []⟩, [], [], str "secret"⟩
      (str "GET") (str "ping") []).authorization = none ∧
    (newRawRequest ⟨⟨str "https", str "h", str "/", []⟩, [], str "admin", []⟩
      (str "GET") (str "ping") []).authorization = none := by
  constructor
  · exact claim_C10_partial_basic_credentials _ _ _ _ (by decide)
      (Or.inl ⟨by decide, by decide⟩)
  · exact claim_C10_partial_basic_credentials _ _ _ _ (by decide)
      (Or.inr ⟨by decide, by decide⟩)

/-- C6: each bulk operation rejects an empty input list locally, returning a
plain validation error (not the tagged API-error type) without building any
request. -/
theorem claim_C6_empty_bulk_rejected (c : bunkerWebClient) :
    BanBulk c [] = .error (.localError (str "at least one ban request is required")) ∧
    UnbanBulk c [] = .error (.localError (str "at least one unban request is required")) ∧
    DeleteConfigs c [] = .error (.localError (str "at least one config key is required")) ∧
    DeleteInstances c [] = .error (.localError (str "at least one hostname is required")) ∧
    (∀ code msg, BanBulk c [] ≠ .error (.apiError code msg)) ∧
    (∀ code msg, UnbanBulk c [] ≠ .error (.apiError code msg)) ∧
    (∀ code msg, DeleteConfigs c [] ≠ .error (.apiError code msg)) ∧
    (∀ code msg, DeleteInstances c [] ≠ .error (.apiError code msg)) := by
  refine ⟨rfl, rfl, rfl, rfl, ?_, ?_, ?_, ?_⟩ <;>
    intro code msg h <;>
    simp [BanBulk, UnbanBulk, DeleteConfigs, DeleteInstances] at h

/-- Witness for C6 at a concrete client. -/
theorem claim_C6_empty_bulk_rejected_witness :
    BanBulk ⟨⟨str "https", str "h", str "/", []⟩, [], [], []⟩ [] =
      .error (.localError (str "at least one ban request is required")) ∧
    BanBulk ⟨⟨str "https", str "h", str "/", []⟩, [], [], []⟩ [] ≠
      .error (.apiError 400 (str "bad request")) := by
  exact ⟨(claim_C6_empty_bulk_rejected _).1,
    (claim_C6_empty_bulk_rejected _).2.2.2.2.1 400 (str "bad request")⟩

/-- C7: a failed managed-resource read removes the resource from state
exactly when the failure is the tagged API error with status 404; every
other failure is surfaced with its code and message intact in the
diagnostic text. -/
theorem claim_C7_read_not_found (title msg mloc : Str) (code : Nat) :
    readMissHandling (.apiError 404 msg) title = .removeFromState ∧
    (code ≠ 404 →
      readMissHandling (.apiError code msg) title =
        .surfaceError title (errorString (.apiError code msg))) ∧
    readMissHandling (.localError mloc) title = .surfaceError title mloc ∧
    (msg ≠ [] →
      errorString (.apiError code msg) =
        str "bunkerweb api error (" ++ Nat.toDigits 10 code ++ str "): " ++ msg) := by
  refine ⟨rfl, fun h => ?_, rfl, fun h => ?_⟩
  · simp [readMissHandling, h]
  · simp [errorString, h]

/-- Witness for C7: a 500 error is surfaced with code and message, a 404
removes the resource. -/
theorem claim_C7_read_not_found_witness :
    readMissHandling (.apiError 500 (str "boom")) (str "Unable to Read Config") =
      .surfaceError (str "Unable to Read Config") (str "bunkerweb api error (500): boom") ∧
    readMissHandling (.apiError 404 (str "gone")) (str "Unable to Read Config") =
      .removeFromState := by
  constructor
  · exact ((claim_C7_read_not_found (str "Unable to Read Config") (str "boom")
      (str "x") 500).2.1 (by decide)).trans (by decide)
  · exact (claim_C7_read_not_found (str "Unable to Read Config") (str "gone")
      (str "x") 500).1

/-- Helper: closed form of the provider-side service normalization on a
concrete string value. -/
theorem normalizedServiceSegment_value (s : Str) :
    normalizedServiceSegment (.value s) =
      if goTrim s = [] then str "global"
      else if goEqualFold (goTrim s) (str "global") then str "global"
      else goTrim s := by
  unfold normalizedServiceSegment toConfigKeyService normalizeTFService stringPointer
  by_cases h1 : goTrim s = []
  · simp only [h1, if_pos rfl]
    norm_num
    decide
  · simp only [if_neg h1]
    by_cases h2 : goEqualFold (goTrim s) (str "global") = true
    · simp [h2, serviceSegment]
    · simp only [Bool.not_eq_true] at h2
      simp [h2, serviceSegment, goTrim_idem, h1]

/-- Helper: any normalized segment renormalizes to itself. -/
theorem normalizedServiceSegment_idem (v : tfString) :
    normalizedServiceSegment (.value (normalizedServiceSegment v)) =
      normalizedServiceSegment v := by
  have hglobal : normalizedServiceSegment (.value (str "global")) = str "global" := by
    decide
  cases v with
  | null => rw [show normalizedServiceSegment .null = str "global" from by decide]; exact hglobal
  | unknown =>
      rw [show normalizedServiceSegment .unknown = str "global" from by decide]; exact hglobal
  | value s =>
      rw [normalizedServiceSegment_value s]
      by_cases h1 : goTrim s = []
      · simp only [h1, if_pos rfl]; exact hglobal
      · simp only [if_neg h1]
        by_cases h2 : goEqualFold (goTrim s) (str "global") = true
        · simp only [if_pos h2]; exact hglobal
        · simp only [if_neg h2]
          rw [normalizedServiceSegment_value (goTrim s), goTrim_idem]
          simp [h1, h2]

/-- C5: the config service segment normalizes absent, empty/whitespace and
any case variant of `global` to `global`; normalization is idempotent; keys
with equal type and name whose services normalize equally produce the same
`configs/<service>/<type>/<name>` path; and a config created with service
omitted is addressable as `global` or `GLOBAL`. -/
theorem claim_C5_service_normalization (v v1 v2 : tfString) (s ty n : Str) :
    normalizedServiceSegment .null = str "global" ∧
    normalizedServiceSegment (.value []) = str "global" ∧
    (goTrim s = [] → normalizedServiceSegment (.value s) = str "global") ∧
    (goEqualFold (goTrim s) (str "global") = true →
      normalizedServiceSegment (.value s) = str "global") ∧
    normalizedServiceSegment (.value (normalizedServiceSegment v)) =
      normalizedServiceSegment v ∧
    (normalizedServiceSegment v1 = normalizedServiceSegment v2 →
      configPath ⟨toConfigKeyService v1, ty, n⟩ =
        configPath ⟨toConfigKeyService v2, ty, n⟩) ∧
    configPath ⟨toConfigKeyService .null, ty, n⟩ =
      configPath ⟨toConfigKeyService (.value (str "GLOBAL")), ty, n⟩ ∧
    configPath ⟨toConfigKeyService .null, ty, n⟩ =
      configPath ⟨toConfigKeyService (.value (str "global")), ty, n⟩ := by
  have hpath : ∀ w1 w2 : tfString,
      normalizedServiceSegment w1 = normalizedServiceSegment w2 →
      configPath ⟨toConfigKeyService w1, ty, n⟩ =
        configPath ⟨toConfigKeyService w2, ty, n⟩ := by
    intro w1 w2 h
    have h' : serviceSegment (toConfigKeyService w1) =
        serviceSegment (toConfigKeyService w2) := h
    simp [configPath, h']
  refine ⟨by decide, by decide, fun h => ?_, fun h => ?_,
    normalizedServiceSegment_idem v, hpath v1 v2, ?_, ?_⟩
  · rw [normalizedServiceSegment_value, if_pos h]
  · rw [normalizedServiceSegment_value]
    by_cases h1 : goTrim s = []
    · rw [if_pos h1]
    · rw [if_neg h1, if_pos h]
  · exact hpath _ _ (by decide)
  · exact hpath _ _ (by decide)

/-- Witness for C5: a config created with service omitted has the same path
as one addressed with service `GLOBAL`, and normalizing a normalized
whitespace-padded service changes nothing. -/
theorem claim_C5_service_normalization_witness :
    normalizedServiceSegment (.value (str "  GLOBAL  ")) = str "global" ∧
    configPath ⟨toConfigKeyService .null, str "http", str "app.conf"⟩ =
      configPath ⟨toConfigKeyService (.value (str "GLOBAL")), str "http", str "app.conf"⟩ ∧
    normalizedServiceSegment (.value (normalizedServiceSegment (.value (str " app ")))) =
      normalizedServiceSegment (.value (str " app ")) := by
  have h := claim_C5_service_normalization (.value (str " app ")) .null .null
    (str "  GLOBAL  ") (str "http") (str "app.conf")
  exact ⟨h.2.2.2.1 (by decide), h.2.2.2.2.2.2.1, h.2.2.2.2.1⟩

/-- C1: the `do` step classifies responses as the spec says: an envelope body
succeeds iff the HTTP status is 2xx and the lowercased envelope status is
`ok` or `success`; a 2xx empty body is success with no payload; a 2xx
non-envelope body is a decode error; a non-2xx non-envelope body is an API
error with the trimmed body text (or the status line when that is empty; an
empty body uses the trimmed status line); and on success the payload handed
to the destination is exactly a present, non-`null` `data`, while missing
or `null` data succeeds without touching the destination. -/
theorem claim_C1_do_classification (sc : Nat) (sl t : Str)
    (e : bunkerWebAPIEnvelope) (out : Bool) :
    ((doStep sc sl (.envelope e t) out).isOk = true ↔
      ((200 ≤ sc ∧ sc < 300) ∧
        (goToLower e.status = str "ok" ∨ goToLower e.status = str "success"))) ∧
    (200 ≤ sc ∧ sc < 300 → doStep sc sl .empty out = .ok none) ∧
    (¬ (200 ≤ sc ∧ sc < 300) → doStep sc sl .empty out = .apiError sc (goTrim sl)) ∧
    (200 ≤ sc ∧ sc < 300 → doStep sc sl (.invalid t) out = .decodeEnvelopeError) ∧
    (¬ (200 ≤ sc ∧ sc < 300) →
      doStep sc sl (.invalid t) out =
        .apiError sc (if goTrim t = [] then sl else goTrim t)) ∧
    ((200 ≤ sc ∧ sc < 300) →
      (goToLower e.status = str "ok" ∨ goToLower e.status = str "success") →
      doStep sc sl (.envelope e t) true =
        .ok (if e.data = [] ∨ e.data = str "null" then none else some e.data)) ∧
    ((200 ≤ sc ∧ sc < 300) →
      (goToLower e.status = str "ok" ∨ goToLower e.status = str "success") →
      (e.data = [] ∨ e.data = str "null") →
      doStep sc sl (.envelope e t) out = .ok none) := by
  have hC : (sc < 200 ∨ 300 ≤ sc ∨
      (goToLower e.status ≠ str "ok" ∧ goToLower e.status ≠ str "success")) ↔
      ¬ ((200 ≤ sc ∧ sc < 300) ∧
        (goToLower e.status = str "ok" ∨ goToLower e.status = str "success")) := by
    constructor
    · rintro (h | h | ⟨h1, h2⟩) ⟨⟨ha, hb⟩, hst⟩
      · omega
      · omega
      · rcases hst with hst | hst
        · exact h1 hst
        · exact h2 hst
    · intro h
      rcases Nat.lt_or_ge sc 200 with h1 | h1
      · exact Or.inl h1
      rcases Nat.lt_or_ge sc 300 with h2 | h2
      · refine Or.inr (Or.inr ⟨fun hok => h ⟨⟨h1, h2⟩, Or.inl hok⟩,
          fun hsu => h ⟨⟨h1, h2⟩, Or.inr hsu⟩⟩)
      · exact Or.inr (Or.inl h2)
  refine ⟨?_, fun h2 => by simp [doStep, h2], fun h2 => by simp [doStep, h2],
    fun h2 => by simp [doStep, h2], fun h2 => by simp [doStep, h2], ?_, ?_⟩
  · by_cases hc : sc < 200 ∨ 300 ≤ sc ∨
        (goToLower e.status ≠ str "ok" ∧ goToLower e.status ≠ str "success")
    · constructor
      · intro h
        exfalso
        revert h
        simp [doStep, if_pos hc, doResult.isOk]
      · intro h
        exact absurd h (hC.mp hc)
    · have hr : (200 ≤ sc ∧ sc < 300) ∧
          (goToLower e.status = str "ok" ∨ goToLower e.status = str "success") := by
        by_contra hr
        exact hc (hC.mpr hr)
      refine ⟨fun _ => hr, fun _ => ?_⟩
      simp only [doStep]
      rw [if_neg hc]
      split <;> rfl
  · intro h2 hst
    have hc : ¬ (sc < 200 ∨ 300 ≤ sc ∨
        (goToLower e.status ≠ str "ok" ∧ goToLower e.status ≠ str "success")) :=
      fun hcc => (hC.mp hcc) ⟨h2, hst⟩
    simp only [doStep]
    rw [if_neg hc]
    simp only [not_true_eq_false, false_or]
    split_ifs <;> rfl
  · intro h2 hst hdata
    have hc : ¬ (sc < 200 ∨ 300 ≤ sc ∨
        (goToLower e.status ≠ str "ok" ∧ goToLower e.status ≠ str "success")) :=
      fun hcc => (hC.mp hcc) ⟨h2, hst⟩
    simp only [doStep]
    rw [if_neg hc, if_pos (Or.inr hdata)]

/-- Witness for C1 at concrete responses: a 200 `ok` envelope succeeds and
hands over the data; a 200 envelope with status `error` fails; a 404 raw
body becomes an API error with the trimmed body text; a 204 empty body is
success without payload. -/
theorem claim_C1_do_classification_witness :
    (doStep 200 (str "200 OK") (.envelope ⟨str "OK", [], str "{}"⟩ (str "body")) true).isOk
      = true ∧
    (doStep 200 (str "200 OK") (.envelope ⟨str "error", str "bad", []⟩ (str "body"))
      true).isOk = false ∧
    doStep 404 (str "404 Not Found") (.invalid (str " missing ")) false =
      .apiError 404 (str "missing") ∧
    doStep 204 (str "204 No Content") .empty false = .ok none ∧
    doStep 200 (str "200 OK") (.envelope ⟨str "ok", [], str "{}"⟩ (str "body")) true =
      .ok (some (str "{}")) := by
  have h200 := claim_C1_do_classification 200 (str "200 OK") (str "body")
    ⟨str "OK", [], str "{}"⟩ true
  have herr := claim_C1_do_classification 200 (str "200 OK") (str "body")
    ⟨str "error", str "bad", []⟩ true
  have h404 := claim_C1_do_classification 404 (str "404 Not Found") (str " missing ")
    ⟨[], [], []⟩ false
  have h204 := claim_C1_do_classification 204 (str "204 No Content") (str "x")
    ⟨[], [], []⟩ false
  have hok := claim_C1_do_classification 200 (str "200 OK") (str "body")
    ⟨str "ok", [], str "{}"⟩ true
  refine ⟨h200.1.mpr ⟨by omega, Or.inl (by decide)⟩, ?_, ?_, h204.2.1 (by omega), ?_⟩
  · have := h200.1
    rcases hbool : (doStep 200 (str "200 OK")
        (.envelope ⟨str "error", str "bad", []⟩ (str "body")) true).isOk with _ | _
    · rfl
    · exfalso
      rcases (herr.1.mp hbool).2 with h | h
      · exact absurd h (by decide)
      · exact absurd h (by decide)
  · exact (h404.2.2.2.2.1 (by omega)).trans (by decide)
  · exact (hok.2.2.2.2.2.1 (by omega) (Or.inl (by decide))).trans (by decide)

/-- C4: Login fails locally (no request is built) when either trimmed
credential is empty; otherwise the one login request always carries Basic
auth built from the given credentials — for every client state, including
one with a bearer token configured — and on success the returned token is
stored in the client, so subsequent requests carry Bearer auth with it. -/
theorem claim_C4_login (c : bunkerWebClient) (u p tok m ep ct : Str) :
    (goTrim u = [] → Login c u p = .error (str "username must be provided")) ∧
    (goTrim u ≠ [] → goTrim p = [] →
      Login c u p = .error (str "password must be provided")) ∧
    (goTrim u ≠ [] → goTrim p ≠ [] →
      ∃ req, Login c u p = .ok req ∧
        req.method = str "POST" ∧
        req.url = withEndpoint c (str "auth") ∧
        req.authorization = some (str "Basic " ++ goBase64 (u ++ [':'] ++ p))) ∧
    (loginApply c tok).apiToken = tok ∧
    (tok ≠ [] →
      (newRawRequest (loginApply c tok) m ep ct).authorization =
        some (str "Bearer " ++ tok)) := by
  refine ⟨fun hu => ?_, fun hu hp => ?_, fun hu hp => ?_, rfl, fun ht => ?_⟩
  · simp [Login, hu]
  · simp [Login, hu, hp]
  · refine ⟨{ newRequest c (str "POST") (str "auth") true with
        authorization := some (str "Basic " ++ goBase64 (u ++ [':'] ++ p)) },
      ?_, rfl, rfl, rfl⟩
    simp [Login, hu, hp]
  · simp [newRawRequest, loginApply, ht]

/-- Witness for C4: empty credentials fail locally; concrete credentials
produce a Basic-authenticated login request even on a bearer-configured
client; the stored token drives subsequent Bearer auth. -/
theorem claim_C4_login_witness :
    Login ⟨⟨str "https", str "h", str "/", []⟩, str "old", [], []⟩ (str "  ") (str "x") =
      .error (str "username must be provided") ∧
    (∃ req, Login ⟨⟨str "https", str "h", str "/", []⟩, str "old", [], []⟩
        (str "admin") (str "secret") = .ok req ∧
      req.authorization = some (str "Basic " ++ goBase64 (str "admin:secret"))) ∧
    (newRawRequest (loginApply ⟨⟨str "https", str "h", str "/", []⟩, str "old", [], []⟩
        (str "tok")) (str "GET") (str "ping") []).authorization =
      some (str "Bearer tok") := by
  have h := claim_C4_login ⟨⟨str "https", str "h", str "/", []⟩, str "old", [], []⟩
    (str "admin") (str "secret") (str "tok") (str "GET") (str "ping") []
  have h0 := claim_C4_login ⟨⟨str "https", str "h", str "/", []⟩, str "old", [], []⟩
    (str "  ") (str "x") (str "tok") (str "GET") (str "ping") []
  refine ⟨h0.1 (by decide), ?_, (h.2.2.2.2 (by decide)).trans (by decide)⟩
  obtain ⟨req, hreq, _, _, hauth⟩ := h.2.2.1 (by decide) (by decide)
  exact ⟨req, hreq, hauth.trans (by decide)⟩

/-- Helper: the per-file loop succeeds with one part per file (trimmed name,
original content) when no trimmed name is empty. -/
theorem uploadFileParts_ok (files : List ConfigUploadFile)
    (h : ∀ f ∈ files, goTrim f.FileName ≠ []) :
    uploadFileParts files =
      .ok (files.map (fun f => .file (str "files") (goTrim f.FileName) f.Content)) := by
  induction files with
  | nil => rfl
  | cons f rest ih =>
      have hf := h f (by simp)
      simp only [uploadFileParts, if_neg hf]
      rw [ih (fun g hg => h g (by simp [hg]))]
      rfl

/-- Helper: the per-file loop fails exactly when some trimmed file name is
empty. -/
theorem uploadFileParts_error_iff (files : List ConfigUploadFile) :
    (∃ err, uploadFileParts files = .error err) ↔
      ∃ f ∈ files, goTrim f.FileName = [] := by
  induction files with
  | nil => simp [uploadFileParts]
  | cons f rest ih =>
      by_cases hf : goTrim f.FileName = []
      · simp [uploadFileParts, hf]
      · simp only [uploadFileParts, if_neg hf]
        constructor
        · rintro ⟨err, herr⟩
          rcases hrest : uploadFileParts rest with e | v
          · obtain ⟨g, hg, hge⟩ := ih.mp ⟨e, hrest⟩
            exact ⟨g, by simp [hg], hge⟩
          · rw [hrest] at herr
            simp [Except.map] at herr
        · rintro ⟨g, hg, hge⟩
          rcases List.mem_cons.mp hg with rfl | hg'
          · exact absurd hge hf
          · obtain ⟨e, he⟩ := ih.mpr ⟨g, hg', hge⟩
            exact ⟨e, by simp [he, Except.map]⟩

/-- Counterexample for C9 as frozen: the `files` part carries the trimmed
filename, not the file's filename verbatim — a file named " a.conf "
produces a part named "a.conf". -/
theorem claim_C9_counterexample :
    UploadConfigs ⟨[], str "http", [⟨str " a.conf ", [97]⟩]⟩ =
      .ok [.field (str "type") (str "http"),
           .file (str "files") (str "a.conf") [97]] ∧
    str "a.conf" ≠ str " a.conf " := by
  constructor
  · rfl
  · decide

/-- C9 (amended: each `files` part carries the file's whitespace-trimmed
filename): UploadConfigs fails locally — no request is built — exactly when
the trimmed type is empty, the file list is empty, or some trimmed file
name is empty; otherwise it builds one buffered multipart body with the
optional `service` field (only when non-empty), the `type` field, and one
`files` part per input file in order with that file's trimmed name and
content, sent as a single POST with the multipart content type fixed. -/
theorem claim_C9_upload_configs (c : bunkerWebClient) (input : ConfigUploadRequest) :
    ((∃ err, UploadConfigs input = .error err) ↔
      (goTrim input.Typ = [] ∨ input.Files = [] ∨
        ∃ f ∈ input.Files, goTrim f.FileName = [])) ∧
    ((∃ err, UploadConfigs input = .error err) →
      ∀ parts req, UploadConfigsRequest c input ≠ .ok (parts, req)) ∧
    (goTrim input.Typ ≠ [] → input.Files ≠ [] →
      (∀ f ∈ input.Files, goTrim f.FileName ≠ []) →
      UploadConfigs input = .ok
        ((if input.Service ≠ [] then [multipartPart.field (str "service") input.Service]
          else []) ++
         [multipartPart.field (str "type") input.Typ] ++
         input.Files.map (fun f => .file (str "files") (goTrim f.FileName) f.Content))) ∧
    (∀ parts req, UploadConfigsRequest c input = .ok (parts, req) →
      req.contentType = some (str "multipart/form-data") ∧
      req.method = str "POST" ∧
      req.url = withEndpoint c (str "configs/upload")) := by
  refine ⟨?_, ?_, ?_, ?_⟩
  · by_cases ht : goTrim input.Typ = []
    · simp [UploadConfigs, ht]
    · by_cases hf : input.Files = []
      · simp [UploadConfigs, ht, hf]
      · simp only [UploadConfigs, if_neg ht, if_neg hf]
        rw [show (goTrim input.Typ = [] ∨ input.Files = [] ∨
            ∃ f ∈ input.Files, goTrim f.FileName = []) ↔
            (∃ f ∈ input.Files, goTrim f.FileName = []) from by simp [ht, hf]]
        rw [← uploadFileParts_error_iff]
        constructor
        · rintro ⟨err, herr⟩
          rcases hrest : uploadFileParts input.Files with e | v
          · exact ⟨e, rfl⟩
          · rw [hrest] at herr
            simp [Except.map] at herr
        · rintro ⟨err, herr⟩
          exact ⟨err, by simp [herr, Except.map]⟩
  · rintro ⟨err, herr⟩ parts req hok
    rw [UploadConfigsRequest, herr] at hok
    simp [Except.map] at hok
  · intro ht hf hnames
    simp only [UploadConfigs, if_neg ht, if_neg hf]
    rw [uploadFileParts_ok input.Files hnames]
    simp [Except.map, List.append_assoc]
  · intro parts req hok
    rw [UploadConfigsRequest] at hok
    rcases hu : UploadConfigs input with e | v
    · rw [hu] at hok
      simp [Except.map] at hok
    · rw [hu] at hok
      simp only [Except.map] at hok
      have hreq : req = newRawRequest c (str "POST") (str "configs/upload")
          (str "multipart/form-data") := by
        have h2 := congrArg (fun x => match x with | Except.ok pr => pr.2 | .error _ => req) hok
        simpa using h2.symm
      subst hreq
      exact ⟨by simp [newRawRequest, str], rfl, rfl⟩

/-- Witness for C9: a concrete two-file upload with a service builds the
expected parts, and an empty type fails locally. -/
theorem claim_C9_upload_configs_witness :
    UploadConfigs ⟨str "app", str "http",
        [⟨str "a.conf", [97]⟩, ⟨str "b.conf", [98]⟩]⟩ =
      .ok [.field (str "service") (str "app"), .field (str "type") (str "http"),
           .file (str "files") (str "a.conf") [97],
           .file (str "files") (str "b.conf") [98]] ∧
    (∃ err, UploadConfigs ⟨str "app", str " ", [⟨str "a.conf", [97]⟩]⟩ = .error err) := by
  have h := claim_C9_upload_configs ⟨⟨str "https", str "h", str "/", []⟩, [], [], []⟩
    ⟨str "app", str "http", [⟨str "a.conf", [97]⟩, ⟨str "b.conf", [98]⟩]⟩
  have h2 := claim_C9_upload_configs ⟨⟨str "https", str "h", str "/", []⟩, [], [], []⟩
    ⟨str "app", str " ", [⟨str "a.conf", [97]⟩]⟩
  constructor
  · exact (h.2.2.1 (by decide) (by decide) (by decide)).trans (by rfl)
  · exact h2.1.mpr (Or.inl (by decide))

/-- Helper: when every per-host call makes exactly one call and succeeds, the
fan-out calls each hostname once in order and aggregates payloads keyed by
hostname. -/
theorem fanOut_ok (call : Str → List instanceCall × Except bunkerWebError apiPayload)
    (g : Str → instanceCall) (f : Str → apiPayload) (hs : List Str)
    (h : ∀ x ∈ hs, call x = ([g x], .ok (f x))) :
    fanOut call hs = (hs.map g, .ok (hs.map (fun x => (x, f x)))) := by
  induction hs with
  | nil => rfl
  | cons a t ih =>
      have ha := h a (by simp)
      simp only [fanOut, ha]
      rw [ih (fun x hx => h x (by simp [hx]))]
      rfl

/-- Helper: the first failing hostname aborts the fan-out — exactly the
hostnames up to and including it are called, and its error is returned. -/
theorem fanOut_firstError
    (call : Str → List instanceCall × Except bunkerWebError apiPayload)
    (g : Str → instanceCall) (f : Str → apiPayload)
    (pre : List Str) (x : Str) (rest : List Str) (e : bunkerWebError)
    (hpre : ∀ y ∈ pre, call y = ([g y], .ok (f y)))
    (hx : call x = ([g x], .error e)) :
    fanOut call (pre ++ x :: rest) = ((pre ++ [x]).map g, .error e) := by
  induction pre with
  | nil => simp only [List.nil_append, fanOut, hx]; rfl
  | cons a t ih =>
      have ha := hpre a (by simp)
      have ih' := ih (fun y hy => hpre y (by simp [hy]))
      simp only [List.cons_append, fanOut, ha, List.append_eq, ih']
      rfl

/-- C8: ping, reload and stop each make exactly one collection-level call
when no hostname is supplied; with hostnames they make one call per
hostname in the caller's order, aggregate payloads keyed by hostname, and
abort at the first per-host failure without calling the remaining
hostnames; delete always uses the single batch call and fails locally on an
empty hostname list. -/
theorem claim_C8_instance_actions (o : instanceOracle) (test : Option Bool)
    (hostnames pre rest : List Str) (x : Str)
    (fp fr fs : Str → apiPayload) (e : bunkerWebError) :
    handlePing o [] = ([.collection (str "instances/ping")], o.pingAll.map .single) ∧
    handleReload o [] test =
      ([.collection (str "instances/reload" ++ testQuery test)],
        (o.reloadAll test).map .single) ∧
    handleStop o [] = ([.collection (str "instances/stop")], o.stopAll.map .single) ∧
    (hostnames ≠ [] → (∀ h ∈ hostnames, goTrim h ≠ []) →
      (∀ h ∈ hostnames, o.pingHost h = .ok (fp h)) →
      handlePing o hostnames =
        (hostnames.map (fun h => .host (goPathJoin [str "instances", h, str "ping"])),
          .ok (.perHost (hostnames.map (fun h => (h, fp h)))))) ∧
    (hostnames ≠ [] → (∀ h ∈ hostnames, goTrim h ≠ []) →
      (∀ h ∈ hostnames, o.reloadHost h test = .ok (fr h)) →
      handleReload o hostnames test =
        (hostnames.map (fun h =>
            .host (goPathJoin [str "instances", h, str "reload"] ++ testQuery test)),
          .ok (.perHost (hostnames.map (fun h => (h, fr h)))))) ∧
    (hostnames ≠ [] → (∀ h ∈ hostnames, goTrim h ≠ []) →
      (∀ h ∈ hostnames, o.stopHost h = .ok (fs h)) →
      handleStop o hostnames =
        (hostnames.map (fun h => .host (goPathJoin [str "instances", h, str "stop"])),
          .ok (.perHost (hostnames.map (fun h => (h, fs h)))))) ∧
    ((∀ y ∈ pre, goTrim y ≠ []) → goTrim x ≠ [] →
      (∀ y ∈ pre, o.pingHost y = .ok (fp y)) → o.pingHost x = .error e →
      handlePing o (pre ++ x :: rest) =
        ((pre ++ [x]).map (fun h => .host (goPathJoin [str "instances", h, str "ping"])),
          .error e)) ∧
    ((∀ y ∈ pre, goTrim y ≠ []) → goTrim x ≠ [] →
      (∀ y ∈ pre, o.reloadHost y test = .ok (fr y)) → o.reloadHost x test = .error e →
      handleReload o (pre ++ x :: rest) test =
        ((pre ++ [x]).map (fun h =>
            .host (goPathJoin [str "instances", h, str "reload"] ++ testQuery test)),
          .error e)) ∧
    ((∀ y ∈ pre, goTrim y ≠ []) → goTrim x ≠ [] →
      (∀ y ∈ pre, o.stopHost y = .ok (fs y)) → o.stopHost x = .error e →
      handleStop o (pre ++ x :: rest) =
        ((pre ++ [x]).map (fun h => .host (goPathJoin [str "instances", h, str "stop"])),
          .error e)) ∧
    handleDelete o [] =
      ([], .error (.localError (str "provide at least one hostname when operation is delete"))) ∧
    (hostnames ≠ [] →
      handleDelete o hostnames =
        ([.batchDelete hostnames],
          (o.deleteBatch hostnames).map (fun _ => .deleted hostnames))) := by
  refine ⟨rfl, rfl, rfl, ?_, ?_, ?_, ?_, ?_, ?_, rfl, ?_⟩
  · intro hne htrim hok
    have hfan := fanOut_ok (PingInstance o)
      (fun h => .host (goPathJoin [str "instances", h, str "ping"])) fp hostnames
      (fun y hy => by simp [PingInstance, htrim y hy, hok y hy])
    simp [handlePing, hne, hfan, Except.map]
  · intro hne htrim hok
    have hfan := fanOut_ok (fun h => ReloadInstance o h test)
      (fun h => .host (goPathJoin [str "instances", h, str "reload"] ++ testQuery test))
      fr hostnames
      (fun y hy => by simp [ReloadInstance, htrim y hy, hok y hy])
    simp [handleReload, hne, hfan, Except.map]
  · intro hne htrim hok
    have hfan := fanOut_ok (StopInstance o)
      (fun h => .host (goPathJoin [str "instances", h, str "stop"])) fs hostnames
      (fun y hy => by simp [StopInstance, htrim y hy, hok y hy])
    simp [handleStop, hne, hfan, Except.map]
  · intro htrims htrim hok herr
    have hfan := fanOut_firstError (PingInstance o)
      (fun h => .host (goPathJoin [str "instances", h, str "ping"])) fp pre x rest e
      (fun y hy => by simp [PingInstance, htrims y hy, hok y hy])
      (by simp [PingInstance, htrim, herr])
    simp [handlePing, hfan, Except.map]
  · intro htrims htrim hok herr
    have hfan := fanOut_firstError (fun h => ReloadInstance o h test)
      (fun h => .host (goPathJoin [str "instances", h, str "reload"] ++ testQuery test))
      fr pre x rest e
      (fun y hy => by simp [ReloadInstance, htrims y hy, hok y hy])
      (by simp [ReloadInstance, htrim, herr])
    simp [handleReload, hfan, Except.map]
  · intro htrims htrim hok herr
    have hfan := fanOut_firstError (StopInstance o)
      (fun h => .host (goPathJoin [str "instances", h, str "stop"])) fs pre x rest e
      (fun y hy => by simp [StopInstance, htrims y hy, hok y hy])
      (by simp [StopInstance, htrim, herr])
    simp [handleStop, hfan, Except.map]
  · intro hne
    simp [handleDelete, hne, DeleteInstancesTrace]

/-- Witness for C8 on the concrete oracle: an empty hostname list pings the
collection endpoint; two hostnames are pinged in order and aggregated; the
failing hostname `bad` aborts the fan-out before `c`; delete fails locally
on no hostnames and batches otherwise. -/
theorem claim_C8_instance_actions_witness :
    handlePing pingTestOracle [] =
      ([.collection (str "instances/ping")], .ok (.single (str "all"))) ∧
    handlePing pingTestOracle [str "a", str "b"] =
      ([.host (str "instances/a/ping"), .host (str "instances/b/ping")],
        .ok (.perHost [(str "a", str "pong"), (str "b", str "pong")])) ∧
    handlePing pingTestOracle [str "a", str "bad", str "c"] =
      ([.host (str "instances/a/ping"), .host (str "instances/bad/ping")],
        .error (.apiError 500 (str "down"))) ∧
    handleDelete pingTestOracle [] =
      ([], .error (.localError (str "provide at least one hostname when operation is delete"))) ∧
    handleDelete pingTestOracle [str "a"] =
      ([.batchDelete [str "a"]], .ok (.deleted [str "a"])) := by
  have h1 := claim_C8_instance_actions pingTestOracle none [str "a", str "b"]
    [str "a"] [str "c"] (str "bad") (fun _ => str "pong") (fun _ => str "reloaded")
    (fun _ => str "stopped") (.apiError 500 (str "down"))
  have h2 := claim_C8_instance_actions pingTestOracle none [str "a"]
    [] [] (str "bad") (fun _ => str "pong") (fun _ => str "reloaded")
    (fun _ => str "stopped") (.apiError 500 (str "down"))
  refine ⟨(h1.1).trans (by rfl), ?_, ?_, h1.2.2.2.2.2.2.2.2.2.1, ?_⟩
  · exact (h1.2.2.2.1 (by decide) (by decide) (by decide)).trans (by decide)
  · exact (h1.2.2.2.2.2.2.1 (by decide) (by decide) (by decide) (by decide)).trans
      (by decide)
  · exact (h2.2.2.2.2.2.2.2.2.2.2 (by decide)).trans (by rfl)
